import Mathlib

/-!
Shallow embedding of the manifest-resolution engine of docker-registry-explorer
(src/registry.rs), of the pagination helper (src/common.rs) and of the per-page
aggregation (src/image.rs).

HTTP effects are modelled by explicit environments: each dependent fetch the
Rust code performs becomes a function field of the environment, returning
`Except String _` like the `anyhow::Result` it embeds.  Timestamps
(`chrono::DateTime<Utc>`) are modelled as `Int` instants; the RFC 3339 parser
of the external `chrono` crate is an abstract field of the environment, since
its algorithm lives outside this repository.
-/

namespace RegistryExplorer

/-- serde_json::Value. -/
inductive Json where
  | null
  | bool (b : Bool)
  | num (n : Int)
  | str (s : String)
  | arr (elems : List Json)
  | obj (fields : List (String × Json))
deriving Inhabited

/-- serde_json Value::get(key): field lookup on objects, None on any other shape. -/
def Json.get : Json → String → Option Json
  | .obj fields, key => (fields.find? (fun f => f.1 == key)).map (fun f => f.2)
  | _, _ => none

/-- serde_json Value::as_str. -/
def Json.as_str : Json → Option String
  | .str s => some s
  | _ => none

/-- serde_json Value::as_array. -/
def Json.as_array : Json → Option (List Json)
  | .arr elems => some elems
  | _ => none

/-- registry::dto::ManifestBlob. -/
structure ManifestBlob where
  architecture : String
  created : String
deriving Repr, DecidableEq, Inhabited

/-- registry::dto::Platform. -/
structure Platform where
  architecture : String
  os : String
  variant : Option String
deriving Repr, DecidableEq, Inhabited

/-- registry::dto::ManifestPlatformEntry. -/
structure ManifestPlatformEntry where
  digest : String
  platform : Option Platform
deriving Repr, DecidableEq, Inhabited

/-- registry::dto::ManifestListResponse. -/
structure ManifestListResponse where
  manifests : List ManifestPlatformEntry
deriving Repr, DecidableEq, Inhabited

/-- registry::dto::TagManifest. -/
inductive TagManifest where
  | Nominal (digest : String) (created : Int) (architecture : String)
  | MultiArch (digest : String) (architectures : List String) (created : Option Int)
  | Error (digest : String)
deriving Repr, DecidableEq, Inhabited

/-- Rust `opt.ok_or_else(|| anyhow!(msg))`. -/
def okOr (o : Option α) (msg : String) : Except String α :=
  match o with
  | some a => .ok a
  | none => .error msg

/-- `true` when `pat` occurs as a contiguous sublist of the second argument. -/
def listContainsSub (pat : List Char) : List Char → Bool
  | [] => pat.isPrefixOf []
  | c :: rest => pat.isPrefixOf (c :: rest) || listContainsSub pat rest

/-- `true` when `pat` occurs as a substring of `s` (Rust str::contains). -/
def strContains (s pat : String) : Bool :=
  listContainsSub pat.data s.data

/--
The observable behaviour of the registry (and of the chrono parser) during one
`Client::manifest(image, tag)` call, for a fixed image and tag:
* `contentTypeHeader` / `digestHeader`: the `content-type` and
  `docker-content-digest` response headers of the initial manifest GET; the
  outer Option is header presence, the inner Option is `to_str()` success;
* `bodyJson`: the initial response body decoded as `serde_json::Value`;
* `bodyManifestList`: the same body decoded as `ManifestListResponse`;
* `blobFetch d`: GET `{image}/blobs/{d}` decoded as `ManifestBlob`;
* `manifestByDigest d`: GET `{image}/manifests/{d}` decoded as a Value;
* `parseRfc3339ToUtc`: `chrono::DateTime::parse_from_rfc3339(_)?.to_utc()`.
-/
structure ResolveEnv where
  contentTypeHeader : Option (Option String)
  digestHeader : Option (Option String)
  bodyJson : Except String Json
  bodyManifestList : Except String ManifestListResponse
  blobFetch : String → Except String ManifestBlob
  manifestByDigest : String → Except String Json
  parseRfc3339ToUtc : String → Except String Int

/-- registry.rs lines 86-91: the content type string, "" when the header is
absent or not valid UTF-8. -/
def contentTypeOf (env : ResolveEnv) : String :=
  (env.contentTypeHeader.bind id).getD ""

/-- registry.rs lines 93-98: the `docker-content-digest` header as a
`Result<String>`. -/
def headerDigestOf (env : ResolveEnv) : Except String String :=
  match env.digestHeader with
  | none => .error "docker-content-digest is missing from response"
  | some none => .error "docker-content-digest is not valid UTF-8"
  | some (some s) => .ok s

/-- registry.rs lines 100-101. -/
def is_multi_arch (content_type : String) : Bool :=
  strContains content_type "manifest.list" || strContains content_type "image.index"

/-- registry.rs lines 112-160: Client::handle_single_manifest. -/
def handle_single_manifest (env : ResolveEnv) (header_digest : Except String String) :
    Except String TagManifest := do
  let json ← env.bodyJson
  match header_digest with
  | .ok digest => do
    let config ← okOr (json.get "config") "config missing"
    let digestField ← okOr (config.get "digest") "digest missing"
    let config_digest ← okOr digestField.as_str "not a string"
    let blob ← env.blobFetch config_digest
    let created ← env.parseRfc3339ToUtc blob.created
    pure (.Nominal digest created blob.architecture)
  | .error _ => do
    let errors ← okOr (json.get "errors") "errors missing"
    let arr ← okOr errors.as_array "not an array"
    let firstError ← okOr arr.head? "empty array"
    let detail ← okOr (firstError.get "detail") "detail missing"
    let revision ← okOr (detail.get "Revision") "revision missing"
    let s ← okOr revision.as_str "not a string"
    pure (.Error s)

/-- registry.rs lines 221-254: Client::fetch_created_date. -/
def fetch_created_date (env : ResolveEnv) (manifest_digest : String) :
    Except String Int := do
  let json ← env.manifestByDigest manifest_digest
  let config ← okOr (json.get "config") "config missing"
  let digestField ← okOr (config.get "digest") "digest missing"
  let config_digest ← okOr digestField.as_str "not a string"
  let blob ← env.blobFetch config_digest
  let created ← env.parseRfc3339ToUtc blob.created
  pure created

/-- The closure on registry.rs lines 196-200: platform is exactly linux/amd64. -/
def isLinuxAmd64 (e : ManifestPlatformEntry) : Bool :=
  e.platform.any (fun p => p.os == "linux" && p.architecture == "amd64")

/-- The closure on registry.rs line 205: the entry carries a platform. -/
def hasPlatform (e : ManifestPlatformEntry) : Bool :=
  e.platform.isSome

/-- registry.rs lines 193-207: the representative entry (`preferred`).
`manifests[0]` in the source would panic on an empty list; `headD default` is
only reached with the same non-empty guarantee the caller establishes. -/
def representative (manifests : List ManifestPlatformEntry) : ManifestPlatformEntry :=
  match manifests.find? isLinuxAmd64 with
  | some e => e
  | none =>
    match manifests.find? hasPlatform with
    | some e => e
    | none => manifests.headD default

/-- registry.rs lines 175-190: the architecture list of a manifest list. -/
def architecturesOf (manifests : List ManifestPlatformEntry) : List String :=
  manifests.filterMap (fun entry =>
    entry.platform.bind (fun p =>
      if p.os == "unknown" && p.architecture == "unknown" then
        none
      else
        let base := p.os ++ "/" ++ p.architecture
        some (match p.variant with
          | some v => base ++ "/" ++ v
          | none => base)))

/-- registry.rs lines 162-219: Client::handle_multi_arch_manifest. -/
def handle_multi_arch_manifest (env : ResolveEnv) (header_digest : Except String String) :
    Except String TagManifest := do
  let digest ← header_digest
  let manifest_list ← env.bodyManifestList
  if manifest_list.manifests.isEmpty then
    pure (.Error digest)
  else
    let architectures := architecturesOf manifest_list.manifests
    let preferred := representative manifest_list.manifests
    let created := (fetch_created_date env preferred.digest).toOption
    pure (.MultiArch digest architectures created)

/-- registry.rs lines 77-110: Client::manifest, i.e. resolve(image, tag). -/
def manifest (env : ResolveEnv) : Except String TagManifest :=
  let content_type := contentTypeOf env
  let header_digest := headerDigestOf env
  if is_multi_arch content_type then
    handle_multi_arch_manifest env header_digest
  else
    handle_single_manifest env header_digest

/-- common::handler::PaginationQuery. -/
structure PaginationQuery where
  page : Option Nat
  size : Option Nat
deriving Repr, DecidableEq

/-- common::service::Paginated. -/
structure Paginated (T : Type) where
  page : Nat
  size : Nat
  total_element_count : Nat
  data : List T
deriving Repr, DecidableEq

/-- common.rs lines 14-35: PaginationQuery::into_paginated.  `stop` is the
Rust local `end` (a Lean keyword).  usize arithmetic wraps on overflow in
release builds (overflow-checks are off), so `page * size` and `start + size`
are taken modulo 2 ^ 64; a debug build would panic at the same inputs. -/
def PaginationQuery.into_paginated (self : PaginationQuery) (default_page_size : Nat)
    (data : List T) : Except String (Paginated T) :=
  let size := self.size.getD default_page_size
  if size > 0 then
    let page := self.page.getD 0
    let total_element_count := data.length
    let start := page * size % 2 ^ 64
    let stop := min ((start + size) % 2 ^ 64) data.length
    if stop ≤ data.length then
      if start < stop then
        .ok { page := page, size := size, total_element_count := total_element_count,
              data := (data.drop start).take (stop - start) }
      else .error "Condition failed: start < end"
    else .error "Condition failed: end <= data.len()"
  else .error "Condition failed: size > 0"

/-- registry::dto::TagsResponse. -/
structure TagsResponse where
  tags : Option (List String)
deriving Repr, DecidableEq

/-- image::dto::Tag. -/
structure Tag where
  name : String
  digest : String
  error : Bool
  architecture : Option String
  created : Option Int
  created_since : Option Int
deriving Repr, DecidableEq, Inhabited

/-- image::dto::ImageInfo. -/
structure ImageInfo where
  tags : Paginated Tag
deriving DecidableEq

/-- Rust Ord::cmp on i64 (the instant of a DateTime<Utc>). -/
def intCmp (x y : Int) : Ordering :=
  if x < y then .lt else if x = y then .eq else .gt

/-- Rust's derived Ord on Option<DateTime<Utc>> : None is the minimum, Some
values compare chronologically. -/
def optCmp : Option Int → Option Int → Ordering
  | none, none => .eq
  | none, some _ => .lt
  | some _, none => .gt
  | some x, some y => intCmp x y

/-- The comparator closure of image.rs line 157, as the boolean relation
`comparator a b is not Greater` that a sort by that comparator establishes
between consecutive elements. -/
def createdLe (a b : Tag) : Bool :=
  optCmp b.created a.created != Ordering.gt

/-- image.rs line 157: `tags.data.sort_by(|a, b| b.created.cmp(&a.created))`.
slice::sort_by is a stable sort placing consecutive elements so the comparator
never returns Greater; modelled by the stable mergeSort. -/
def sortTagsByCreated (ts : List Tag) : List Tag :=
  ts.mergeSort createdLe

/-- image.rs lines 118-151: the match building an image::dto::Tag from a
TagManifest (`now` is `chrono::Utc::now()`). -/
def tagOfManifest (now : Int) (name : String) : TagManifest → Tag
  | .Nominal digest created architecture =>
    { name := name, digest := digest, error := false,
      architecture := some architecture, created := some created,
      created_since := some (now - created) }
  | .MultiArch digest architectures created =>
    { name := name, digest := digest, error := false,
      architecture := some (String.intercalate ", " architectures),
      created := created, created_since := created.map (fun c => now - c) }
  | .Error digest =>
    { name := name, digest := digest, error := true, architecture := none,
      created := none, created_since := none }

/-- image.rs lines 95-106: service::get_image_tags, with the tags/list HTTP
response as an explicit input. -/
def get_image_tags (tagsResponse : Except String TagsResponse) :
    Except String (List String) :=
  tagsResponse.map (fun r => r.tags.getD [])

/-- image.rs lines 108-160: service::get_image_info.  `resolveTag t` is the
result of `Client::manifest(image_name, t)`; join_all preserves order and
into_result fails on the first hard error, which is `mapM` over Except. -/
def get_image_info (tagsResponse : Except String TagsResponse)
    (resolveTag : String → Except String TagManifest) (now : Int)
    (pagination : PaginationQuery) : Except String ImageInfo := do
  let tags ← get_image_tags tagsResponse
  let paged ← pagination.into_paginated 15 tags
  let resolved ← paged.data.mapM (fun tagName =>
    (resolveTag tagName).map (tagOfManifest now tagName))
  pure { tags := { page := paged.page, size := paged.size,
                   total_element_count := paged.total_element_count,
                   data := sortTagsByCreated resolved } }

/-- `true` exactly on the `error` constructor of `Except` (a hard failure). -/
def isHardError : Except String α → Bool
  | .error _ => true
  | .ok _ => false

/-- The errors[0].detail.Revision string path through a registry error payload,
as the spec describes it (used to state properties of the fallback branch). -/
def errorsRevision (json : Json) : Option String := do
  let errors ← json.get "errors"
  let arr ← errors.as_array
  let firstError ← arr.head?
  let detail ← firstError.get "detail"
  let revision ← detail.get "Revision"
  revision.as_str

/-- A real platform in the sense of the spec: present and not the
unknown/unknown sentinel. -/
def isRealPlatform (e : ManifestPlatformEntry) : Bool :=
  e.platform.any (fun p => !(p.os == "unknown" && p.architecture == "unknown"))

/-- The architecture string contributed by one manifest-list entry, written
from the spec wording: entries with no platform or with the unknown/unknown
sentinel contribute nothing; a surviving entry contributes os/architecture
with /variant appended exactly when the variant is present. -/
def specArchString (e : ManifestPlatformEntry) : Option String :=
  match e.platform with
  | none => none
  | some p =>
    if p.os == "unknown" && p.architecture == "unknown" then none
    else some (p.os ++ "/" ++ p.architecture ++
      (match p.variant with
        | some v => "/" ++ v
        | none => ""))

/-- Fixture: the config blob served for the C1 witness. -/
def blobC1 : ManifestBlob :=
  { architecture := "amd64", created := "2024-01-02T03:04:05Z" }

/-- Fixture: a single-arch manifest body. -/
def jsonC1 : Json :=
  .obj [("config", .obj [("digest", .str "sha256:cfg")])]

/-- Fixture: a registry run serving a 2xx single-arch manifest with the digest
header set, a valid config.digest and a config blob that decodes. -/
def envC1 : ResolveEnv :=
  { contentTypeHeader := some (some "application/vnd.docker.distribution.manifest.v2+json"),
    digestHeader := some (some "sha256:c1"),
    bodyJson := .ok jsonC1,
    bodyManifestList := .error "not a manifest list",
    blobFetch := fun d => if d = "sha256:cfg" then .ok blobC1 else .error "404",
    manifestByDigest := fun _ => .error "unused",
    parseRfc3339ToUtc := fun s =>
      if s = "2024-01-02T03:04:05Z" then .ok 1704164645 else .error "parse error" }

/-- Fixture: a registry error payload with an errors[0].detail.Revision path. -/
def jsonC4 : Json :=
  .obj [("errors", .arr [.obj
    [("code", .str "MANIFEST_UNKNOWN"),
     ("detail", .obj [("Revision", .str "sha256:rev")])]])]

/-- Fixture: a registry run answering the manifest GET with an error body and
no docker-content-digest header. -/
def envC4 : ResolveEnv :=
  { contentTypeHeader := some (some "application/json"),
    digestHeader := none,
    bodyJson := .ok jsonC4,
    bodyManifestList := .error "not a manifest list",
    blobFetch := fun _ => .error "unused",
    manifestByDigest := fun _ => .error "unused",
    parseRfc3339ToUtc := fun _ => .error "unused" }

/-- Fixture: a multi-arch response with an empty manifests array. -/
def envC6 : ResolveEnv :=
  { contentTypeHeader := some (some "application/vnd.oci.image.index.v1+json"),
    digestHeader := some (some "sha256:list"),
    bodyJson := .error "unused",
    bodyManifestList := .ok { manifests := [] },
    blobFetch := fun _ => .error "unused",
    manifestByDigest := fun _ => .error "unused",
    parseRfc3339ToUtc := fun _ => .error "unused" }

/-- Fixture: a multi-arch response whose docker-content-digest header is
missing. -/
def envC8 : ResolveEnv :=
  { contentTypeHeader := some (some "application/vnd.docker.distribution.manifest.list.v2+json"),
    digestHeader := none,
    bodyJson := .error "unused",
    bodyManifestList := .ok { manifests := [{ digest := "sha256:m", platform := none }] },
    blobFetch := fun _ => .error "unused",
    manifestByDigest := fun _ => .error "unused",
    parseRfc3339ToUtc := fun _ => .error "unused" }

/-- Fixture: a resolver answering tag v1 with a Nominal manifest dated 10. -/
def rtC9 : String → Except String TagManifest := fun t =>
  if t = "v1" then .ok (.Nominal "sha256:a" 10 "amd64") else .error "unused"

/-- Fixture: the image::dto::Tag built from rtC9's answer at now = 0. -/
def tagC9 : Tag :=
  { name := "v1", digest := "sha256:a", error := false,
    architecture := some "amd64", created := some 10,
    created_since := some (0 - 10) }

/-- Fixture: the ImageInfo produced for the one-tag page of the C9 witness. -/
def infoC9 : ImageInfo :=
  { tags := { page := 0, size := 15, total_element_count := 1, data := [tagC9] } }

/-- Fixture: a linux/amd64 manifest-list entry. -/
def entryAmd64 : ManifestPlatformEntry :=
  { digest := "sha256:amd",
    platform := some { architecture := "amd64", os := "linux", variant := none } }

/-- Fixture: a linux/arm64/v8 manifest-list entry. -/
def entryArm : ManifestPlatformEntry :=
  { digest := "sha256:arm",
    platform := some { architecture := "arm64", os := "linux", variant := some "v8" } }

/-- Fixture: an attestation entry carrying the unknown/unknown sentinel. -/
def entryAttestation : ManifestPlatformEntry :=
  { digest := "sha256:att",
    platform := some { architecture := "unknown", os := "unknown", variant := none } }

/-- Fixture: an entry with no platform at all. -/
def entryNoPlatform : ManifestPlatformEntry :=
  { digest := "sha256:nop", platform := none }

/-- Fixture: a manifest list with the amd64 entry in second position. -/
def mlC2 : ManifestListResponse :=
  { manifests := [entryArm, entryAmd64] }

/-- Fixture: a registry run where the representative manifest and its config
blob resolve, dating the amd64 entry at instant 7. -/
def envC2 : ResolveEnv :=
  { contentTypeHeader := some (some "application/vnd.docker.distribution.manifest.list.v2+json"),
    digestHeader := some (some "sha256:list2"),
    bodyJson := .error "unused",
    bodyManifestList := .ok mlC2,
    blobFetch := fun d =>
      if d = "sha256:acfg" then .ok { architecture := "amd64", created := "ts" }
      else .error "404",
    manifestByDigest := fun d =>
      if d = "sha256:amd" then .ok (.obj [("config", .obj [("digest", .str "sha256:acfg")])])
      else .error "manifest unknown",
    parseRfc3339ToUtc := fun s => if s = "ts" then .ok 7 else .error "parse error" }

/-- Fixture: a manifest list holding the unknown/unknown attestation entry
first and a real linux/arm64/v8 entry second. -/
def mlC3 : ManifestListResponse :=
  { manifests := [entryAttestation, entryArm] }

/-- Fixture: a registry run where only the arm entry's nested manifest and
config blob exist; the attestation digest resolves to nothing. -/
def envC3 : ResolveEnv :=
  { contentTypeHeader := some (some "application/vnd.oci.image.index.v1+json"),
    digestHeader := some (some "sha256:list3"),
    bodyJson := .error "unused",
    bodyManifestList := .ok mlC3,
    blobFetch := fun d =>
      if d = "sha256:armcfg" then .ok { architecture := "arm64", created := "t" }
      else .error "404",
    manifestByDigest := fun d =>
      if d = "sha256:arm" then .ok (.obj [("config", .obj [("digest", .str "sha256:armcfg")])])
      else .error "manifest unknown",
    parseRfc3339ToUtc := fun s => if s = "t" then .ok 5 else .error "parse error" }

/-- Fixture: a one-entry manifest list. -/
def mlC5 : ManifestListResponse :=
  { manifests := [entryAmd64] }

/-- Fixture: a registry run where the representative's manifest resolves but
its config blob fetch fails with a 404. -/
def envC5 : ResolveEnv :=
  { contentTypeHeader := some (some "application/vnd.docker.distribution.manifest.list.v2+json"),
    digestHeader := some (some "sha256:list5"),
    bodyJson := .error "unused",
    bodyManifestList := .ok mlC5,
    blobFetch := fun _ => .error "blob 404",
    manifestByDigest := fun d =>
      if d = "sha256:amd" then .ok (.obj [("config", .obj [("digest", .str "sha256:acfg")])])
      else .error "404",
    parseRfc3339ToUtc := fun _ => .error "unused" }

/-- Fixture: a linux/arm64 entry without a variant. -/
def entryArmNoVariant : ManifestPlatformEntry :=
  { digest := "sha256:arm2",
    platform := some { architecture := "arm64", os := "linux", variant := none } }

/-- Fixture: the spec's architecture-list example, sentinel first. -/
def mlC7 : ManifestListResponse :=
  { manifests := [entryAttestation, entryArmNoVariant] }

/-- Fixture: a registry run for the architecture-list example where every
nested fetch fails. -/
def envC7 : ResolveEnv :=
  { contentTypeHeader := some (some "application/vnd.oci.image.index.v1+json"),
    digestHeader := some (some "sha256:list7"),
    bodyJson := .error "unused",
    bodyManifestList := .ok mlC7,
    blobFetch := fun _ => .error "404",
    manifestByDigest := fun _ => .error "404",
    parseRfc3339ToUtc := fun _ => .error "parse error" }

/-- Reduction of bind on an ok value (the Except monad of anyhow::Result). -/
theorem except_bind_ok (a : α) (f : α → Except String β) :
    (Except.ok a >>= f : Except String β) = f a := rfl

/-- Reduction of bind on an error value. -/
theorem except_bind_error (e : String) (f : α → Except String β) :
    (Except.error e >>= f : Except String β) = Except.error e := rfl

/-- Reduction of pure to ok. -/
theorem except_pure (a : α) : (pure a : Except String α) = Except.ok a := rfl

/-- C1: on the single-arch path, when the docker-content-digest header is
present, the body has a valid config.digest and the config blob decodes,
resolve returns Nominal with the header digest, the blob architecture and the
RFC 3339 parse (to UTC) of the blob created field; a parse failure of created
is a hard error, not swallowed. -/
theorem C1_single_arch_nominal (env : ResolveEnv) (d : String) (json cfg dj : Json)
    (cd : String) (blob : ManifestBlob)
    (hct : is_multi_arch (contentTypeOf env) = false)
    (hd : env.digestHeader = some (some d))
    (hb : env.bodyJson = .ok json)
    (hcfg : json.get "config" = some cfg)
    (hdj : cfg.get "digest" = some dj)
    (hcd : dj.as_str = some cd)
    (hblob : env.blobFetch cd = .ok blob) :
    (∀ t, env.parseRfc3339ToUtc blob.created = .ok t →
      manifest env = .ok (.Nominal d t blob.architecture)) ∧
    (∀ e, env.parseRfc3339ToUtc blob.created = .error e →
      manifest env = .error e) := by
  constructor <;> intro x hx <;>
    simp [manifest, hct, handle_single_manifest, headerDigestOf, hd, hb, okOr,
      hcfg, hdj, hcd, hblob, hx, except_bind_ok, except_bind_error, except_pure]

/-- C1 witness: a concrete registry run exercising the Nominal conclusion. -/
theorem C1_witness :
    manifest envC1 = .ok (.Nominal "sha256:c1" 1704164645 "amd64") :=
  (C1_single_arch_nominal envC1 "sha256:c1" jsonC1
    (.obj [("digest", .str "sha256:cfg")]) (.str "sha256:cfg") "sha256:cfg" blobC1
    rfl rfl rfl rfl rfl rfl rfl).1 1704164645 rfl

/-- C4: on the single-arch path with the digest header absent, resolve returns
the Error variant with the string at errors[0].detail.Revision when that path
exists and is a string, and a hard error (no silent fallback) when any field
on the path is missing, the array is empty, or the value is not a string. -/
theorem C4_error_payload_extraction (env : ResolveEnv) (json : Json)
    (hct : is_multi_arch (contentTypeOf env) = false)
    (hd : env.digestHeader = none)
    (hb : env.bodyJson = .ok json) :
    (∀ s, errorsRevision json = some s → manifest env = .ok (.Error s)) ∧
    (errorsRevision json = none → isHardError (manifest env) = true) := by
  have hm : manifest env =
      handle_single_manifest env (headerDigestOf env) := by
    simp [manifest, hct]
  have hhd : headerDigestOf env =
      .error "docker-content-digest is missing from response" := by
    simp [headerDigestOf, hd]
  constructor
  · intro s hs
    simp only [errorsRevision, Option.bind_eq_bind, Option.bind_eq_some] at hs
    obtain ⟨errors, h1, arr, h2, firstError, h3, detail, h4, rev, h5, h6⟩ := hs
    rw [hm]
    simp [handle_single_manifest, hhd, hb, okOr, h1, h2, h3, h4, h5, h6,
      except_bind_ok, except_pure]
  · intro hnone
    rw [hm]
    simp only [handle_single_manifest, hhd, hb, except_bind_ok]
    cases h1 : json.get "errors" with
    | none => simp [okOr, h1, except_bind_error, isHardError]
    | some errors =>
      cases h2 : errors.as_array with
      | none => simp [okOr, h1, h2, except_bind_ok, except_bind_error, isHardError]
      | some arr =>
        cases h3 : arr.head? with
        | none => simp [okOr, h1, h2, h3, except_bind_ok, except_bind_error, isHardError]
        | some firstError =>
          cases h4 : firstError.get "detail" with
          | none => simp [okOr, h1, h2, h3, h4, except_bind_ok, except_bind_error, isHardError]
          | some detail =>
            cases h5 : detail.get "Revision" with
            | none =>
              simp [okOr, h1, h2, h3, h4, h5, except_bind_ok, except_bind_error, isHardError]
            | some rev =>
              cases h6 : rev.as_str with
              | none =>
                simp [okOr, h1, h2, h3, h4, h5, h6, except_bind_ok, except_bind_error,
                  isHardError]
              | some s =>
                rw [errorsRevision, h1] at hnone
                simp [h2, h3, h4, h5, h6] at hnone

/-- C4 witness: the Error variant is produced from a concrete error payload. -/
theorem C4_witness :
    manifest envC4 = .ok (.Error "sha256:rev") :=
  (C4_error_payload_extraction envC4 jsonC4 rfl rfl rfl).1 "sha256:rev" rfl

/-- C6: a multi-arch response whose manifests array is empty resolves to the
Error variant carrying the outer docker-content-digest header value. -/
theorem C6_empty_multi_arch_error (env : ResolveEnv) (d : String)
    (ml : ManifestListResponse)
    (hct : is_multi_arch (contentTypeOf env) = true)
    (hd : env.digestHeader = some (some d))
    (hb : env.bodyManifestList = .ok ml)
    (hemp : ml.manifests = []) :
    manifest env = .ok (.Error d) := by
  simp [manifest, hct, handle_multi_arch_manifest, headerDigestOf, hd, hb, hemp,
    except_bind_ok, except_pure]

/-- C6 witness: a concrete empty manifest list. -/
theorem C6_witness :
    manifest envC6 = .ok (.Error "sha256:list") :=
  C6_empty_multi_arch_error envC6 "sha256:list" { manifests := [] } rfl rfl rfl rfl

/-- C8: on the multi-arch path the docker-content-digest header is mandatory:
when it is absent or unreadable, resolve fails with that hard error, and the
error-payload fallback of the single-arch path is never attempted. -/
theorem C8_multi_arch_header_mandatory (env : ResolveEnv) (e0 : String)
    (hct : is_multi_arch (contentTypeOf env) = true)
    (he : headerDigestOf env = .error e0) :
    manifest env = .error e0 ∧ ∀ tm : TagManifest, manifest env ≠ .ok tm := by
  have h : manifest env = .error e0 := by
    simp [manifest, hct, handle_multi_arch_manifest, he, except_bind_error]
  exact ⟨h, fun tm htm => by rw [h] at htm; exact Except.noConfusion htm⟩

/-- C8 witness: a concrete manifest-list response lacking the digest header. -/
theorem C8_witness :
    manifest envC8 = .error "docker-content-digest is missing from response" :=
  (C8_multi_arch_header_mandatory envC8
    "docker-content-digest is missing from response" rfl rfl).1

/-- find? returns the element at the first index satisfying the predicate. -/
theorem find?_eq_of_first {α : Type} (p : α → Bool) (l : List α) (i : Nat)
    (hi : i < l.length) (hp : p (l.get ⟨i, hi⟩) = true)
    (hfirst : ∀ j (hj : j < i), p (l.get ⟨j, Nat.lt_trans hj hi⟩) = false) :
    l.find? p = some (l.get ⟨i, hi⟩) := by
  induction l generalizing i with
  | nil => exact absurd hi (Nat.not_lt_zero i)
  | cons a l ih =>
    cases i with
    | zero => exact List.find?_cons_of_pos l hp
    | succ i =>
      have ha : p a = false := hfirst 0 (Nat.succ_pos i)
      rw [List.find?_cons_of_neg l (by simp [ha])]
      exact ih i (Nat.lt_of_succ_lt_succ hi) hp
        (fun j hj => hfirst (j + 1) (Nat.succ_lt_succ hj))

/-- The representative is the first linux/amd64 entry when one exists. -/
theorem representative_of_first_amd64 (ms : List ManifestPlatformEntry) (i : Nat)
    (hi : i < ms.length) (hp : isLinuxAmd64 (ms.get ⟨i, hi⟩) = true)
    (hfirst : ∀ j (hj : j < i), isLinuxAmd64 (ms.get ⟨j, Nat.lt_trans hj hi⟩) = false) :
    representative ms = ms.get ⟨i, hi⟩ := by
  unfold representative
  rw [find?_eq_of_first isLinuxAmd64 ms i hi hp hfirst]

/-- Without a linux/amd64 entry, the representative is the first entry
carrying a platform. -/
theorem representative_of_first_platform (ms : List ManifestPlatformEntry)
    (hnone : ∀ e ∈ ms, isLinuxAmd64 e = false) (i : Nat) (hi : i < ms.length)
    (hp : hasPlatform (ms.get ⟨i, hi⟩) = true)
    (hfirst : ∀ j (hj : j < i), hasPlatform (ms.get ⟨j, Nat.lt_trans hj hi⟩) = false) :
    representative ms = ms.get ⟨i, hi⟩ := by
  unfold representative
  rw [List.find?_eq_none.mpr (fun x hx => by simp [hnone x hx]),
    find?_eq_of_first hasPlatform ms i hi hp hfirst]

/-- With no platform anywhere, the representative is the head of the list. -/
theorem representative_of_no_platform (ms : List ManifestPlatformEntry)
    (hne : ms ≠ []) (hall : ∀ e ∈ ms, e.platform = none) :
    representative ms = ms.head hne := by
  unfold representative
  rw [List.find?_eq_none.mpr (fun x hx => by simp [isLinuxAmd64, hall x hx]),
    List.find?_eq_none.mpr (fun x hx => by simp [hasPlatform, hall x hx])]
  cases ms with
  | nil => exact absurd rfl hne
  | cons a t => rfl

/-- On the multi-arch path with the header digest present, a decodable body
and a non-empty list, resolve produces MultiArch with the architecture list
and the best-effort created date of the representative entry. -/
theorem manifest_multi_arch_nonempty (env : ResolveEnv) (d : String)
    (ml : ManifestListResponse)
    (hct : is_multi_arch (contentTypeOf env) = true)
    (hd : env.digestHeader = some (some d))
    (hb : env.bodyManifestList = .ok ml)
    (hne : ml.manifests ≠ []) :
    manifest env = .ok (.MultiArch d (architecturesOf ml.manifests)
      ((fetch_created_date env (representative ml.manifests).digest).toOption)) := by
  cases hms : ml.manifests with
  | nil => exact absurd hms hne
  | cons a t =>
    simp [manifest, hct, handle_multi_arch_manifest, headerDigestOf, hd, hb, hms,
      except_bind_ok, except_pure]

/-- C2: on the multi-arch path the entry whose created date is looked up is
the first linux/amd64 entry regardless of position; without one, the first
entry carrying any platform; without any platform, the first entry. -/
theorem C2_representative_priority (env : ResolveEnv) (d : String)
    (ml : ManifestListResponse)
    (hct : is_multi_arch (contentTypeOf env) = true)
    (hd : env.digestHeader = some (some d))
    (hb : env.bodyManifestList = .ok ml)
    (hne : ml.manifests ≠ []) :
    (∀ i (hi : i < ml.manifests.length),
      isLinuxAmd64 (ml.manifests.get ⟨i, hi⟩) = true →
      (∀ j (hj : j < i), isLinuxAmd64 (ml.manifests.get ⟨j, Nat.lt_trans hj hi⟩) = false) →
      manifest env = .ok (.MultiArch d (architecturesOf ml.manifests)
        ((fetch_created_date env (ml.manifests.get ⟨i, hi⟩).digest).toOption))) ∧
    ((∀ e ∈ ml.manifests, isLinuxAmd64 e = false) →
      ∀ i (hi : i < ml.manifests.length),
      hasPlatform (ml.manifests.get ⟨i, hi⟩) = true →
      (∀ j (hj : j < i), hasPlatform (ml.manifests.get ⟨j, Nat.lt_trans hj hi⟩) = false) →
      manifest env = .ok (.MultiArch d (architecturesOf ml.manifests)
        ((fetch_created_date env (ml.manifests.get ⟨i, hi⟩).digest).toOption))) ∧
    ((∀ e ∈ ml.manifests, e.platform = none) →
      manifest env = .ok (.MultiArch d (architecturesOf ml.manifests)
        ((fetch_created_date env (ml.manifests.head hne).digest).toOption))) := by
  have hmain := manifest_multi_arch_nonempty env d ml hct hd hb hne
  refine ⟨?_, ?_, ?_⟩
  · intro i hi hp hfirst
    rw [hmain, representative_of_first_amd64 ml.manifests i hi hp hfirst]
  · intro hnone i hi hp hfirst
    rw [hmain, representative_of_first_platform ml.manifests hnone i hi hp hfirst]
  · intro hall
    rw [hmain, representative_of_no_platform ml.manifests hne hall]

/-- C2 witness: the amd64 entry in second position is the one whose date is
fetched, and its date lands in the result. -/
theorem C2_witness :
    manifest envC2 = .ok (.MultiArch "sha256:list2" ["linux/arm64/v8", "linux/amd64"] (some 7)) :=
  (C2_representative_priority envC2 "sha256:list2" mlC2 rfl rfl rfl
      (List.cons_ne_nil _ _)).1 1 (by decide) rfl
    (fun j hj => by
      have h0 : j = 0 := Nat.lt_one_iff.mp hj
      subst h0
      rfl)

/-- C3 counterexample: in a list whose first entry has the unknown/unknown
sentinel and whose second has a real platform, the representative is the
sentinel entry, so its dead-end digest is used for the created-date lookup and
the available date of the real entry is lost. -/
theorem C3_counterexample :
    isRealPlatform entryAttestation = false ∧
    isRealPlatform entryArm = true ∧
    representative [entryAttestation, entryArm] = entryAttestation ∧
    manifest envC3 = .ok (.MultiArch "sha256:list3" ["linux/arm64/v8"] none) ∧
    fetch_created_date envC3 entryArm.digest = .ok 5 :=
  ⟨rfl, rfl, rfl, rfl, rfl⟩

/-- C3 (amended): entries with no platform or the unknown/unknown sentinel
are excluded from the architecture list, but representative selection only
deprioritizes entries lacking a platform: whenever some entry carries a
platform, the representative carries one, and an unknown/unknown platform may
still be selected. -/
theorem C3_amended_representative_has_platform (ms : List ManifestPlatformEntry)
    (h : ∃ e ∈ ms, hasPlatform e = true) :
    hasPlatform (representative ms) = true := by
  unfold representative
  cases hfind : ms.find? isLinuxAmd64 with
  | some e =>
    have hp := List.find?_some hfind
    cases hpe : e.platform with
    | none => rw [isLinuxAmd64, hpe] at hp; simp [Option.any] at hp
    | some p => simp [hasPlatform, hpe]
  | none =>
    cases hfind2 : ms.find? hasPlatform with
    | some e => exact List.find?_some hfind2
    | none =>
      obtain ⟨e, he, hp⟩ := h
      rw [List.find?_eq_none] at hfind2
      exact absurd hp (by simpa using hfind2 e he)

/-- C3 amended witness: with a platform-less entry first and a sentinel entry
second, the representative still carries a platform. -/
theorem C3_amended_witness :
    hasPlatform (representative [entryNoPlatform, entryAttestation]) = true :=
  C3_amended_representative_has_platform [entryNoPlatform, entryAttestation]
    ⟨entryAttestation, by simp, rfl⟩

/-- C5: any failure of the nested representative-manifest/config-blob fetch is
swallowed: resolve still returns MultiArch with created absent, never an
error. -/
theorem C5_created_best_effort (env : ResolveEnv) (d : String)
    (ml : ManifestListResponse) (e0 : String)
    (hct : is_multi_arch (contentTypeOf env) = true)
    (hd : env.digestHeader = some (some d))
    (hb : env.bodyManifestList = .ok ml)
    (hne : ml.manifests ≠ [])
    (hfail : fetch_created_date env (representative ml.manifests).digest = .error e0) :
    manifest env = .ok (.MultiArch d (architecturesOf ml.manifests) none) := by
  rw [manifest_multi_arch_nonempty env d ml hct hd hb hne, hfail]
  rfl

/-- C5 witness: a blob 404 in the nested fetch yields MultiArch with created
absent. -/
theorem C5_witness :
    manifest envC5 = .ok (.MultiArch "sha256:list5" ["linux/amd64"] none) :=
  C5_created_best_effort envC5 "sha256:list5" mlC5 "blob 404" rfl rfl rfl
    (List.cons_ne_nil _ _) rfl

/-- The architecture list built by the code coincides pointwise with the
formatting rule stated by the spec. -/
theorem architecturesOf_eq_spec (ms : List ManifestPlatformEntry) :
    architecturesOf ms = ms.filterMap specArchString := by
  unfold architecturesOf
  congr 1
  funext e
  cases hp : e.platform with
  | none => simp [specArchString, hp]
  | some p =>
    cases hv : p.variant with
    | none =>
      by_cases h : p.os = "unknown" ∧ p.architecture = "unknown"
      · simp [specArchString, hp, hv, h]
      · simp [specArchString, hp, hv, h]
    | some v =>
      by_cases h : p.os = "unknown" ∧ p.architecture = "unknown"
      · simp [specArchString, hp, hv, h]
      · simp [specArchString, hp, hv, h, String.append_assoc]

/-- C7: the architectures of a non-empty multi-arch result are, in source
order, exactly one os/architecture(/variant) string per entry whose platform
is present and not the unknown/unknown sentinel. -/
theorem C7_architecture_list (env : ResolveEnv) (d : String)
    (ml : ManifestListResponse)
    (hct : is_multi_arch (contentTypeOf env) = true)
    (hd : env.digestHeader = some (some d))
    (hb : env.bodyManifestList = .ok ml)
    (hne : ml.manifests ≠ []) :
    manifest env = .ok (.MultiArch d (ml.manifests.filterMap specArchString)
      ((fetch_created_date env (representative ml.manifests).digest).toOption)) := by
  rw [manifest_multi_arch_nonempty env d ml hct hd hb hne, architecturesOf_eq_spec]

/-- C7 witness: the spec's example, where only linux/arm64 survives. -/
theorem C7_witness :
    manifest envC7 = .ok (.MultiArch "sha256:list7" ["linux/arm64"] none) :=
  C7_architecture_list envC7 "sha256:list7" mlC7 rfl rfl rfl (List.cons_ne_nil _ _)

/-- Less is not Greater. -/
theorem bne_gt_of_lt : (Ordering.lt != Ordering.gt) = true := by decide

/-- Equal is not Greater. -/
theorem bne_gt_of_eq : (Ordering.eq != Ordering.gt) = true := by decide

/-- Greater is Greater. -/
theorem bne_gt_of_gt : (Ordering.gt != Ordering.gt) = false := by decide

/-- intCmp never answers Greater exactly when the first value is at most the
second. -/
theorem intCmp_bne_gt (x y : Int) : (intCmp x y != Ordering.gt) = true ↔ x ≤ y := by
  unfold intCmp
  by_cases h1 : x < y
  · rw [if_pos h1]
    exact ⟨fun _ => by omega, fun _ => bne_gt_of_lt⟩
  · rw [if_neg h1]
    by_cases h2 : x = y
    · rw [if_pos h2]
      exact ⟨fun _ => by omega, fun _ => bne_gt_of_eq⟩
    · rw [if_neg h2]
      exact ⟨fun h => absurd h (by decide), fun h => (by omega : False).elim⟩

/-- The sort comparator is transitive. -/
theorem createdLe_trans (a b c : Tag) (h1 : createdLe a b) (h2 : createdLe b c) :
    createdLe a c := by
  cases hA : a.created <;> cases hB : b.created <;> cases hC : c.created <;>
    simp_all [createdLe, optCmp, intCmp_bne_gt, bne_gt_of_lt, bne_gt_of_eq,
      bne_gt_of_gt] <;> omega

/-- The sort comparator is total. -/
theorem createdLe_total (a b : Tag) : createdLe a b || createdLe b a := by
  cases hA : a.created <;> cases hB : b.created <;>
    simp_all [createdLe, optCmp, intCmp_bne_gt, bne_gt_of_lt, bne_gt_of_eq,
      bne_gt_of_gt] <;> omega

/-- The sorted page is pairwise ordered by the comparator. -/
theorem sortTagsByCreated_sorted (ts : List Tag) :
    (sortTagsByCreated ts).Pairwise (fun a b => createdLe a b = true) := by
  unfold sortTagsByCreated
  exact List.sorted_mergeSort createdLe_trans createdLe_total ts

/-- Under the comparator, a dated tag can never follow an undated one. -/
theorem createdLe_isSome {a b : Tag} (hle : createdLe a b = true) :
    b.created.isSome = true → a.created.isSome = true := by
  intro hb
  cases hA : a.created with
  | some x => simp
  | none =>
    cases hB : b.created with
    | none => rw [hB] at hb; simp at hb
    | some y =>
      rw [createdLe, hB, hA] at hle
      simp only [optCmp] at hle
      exact absurd hle (by decide)

/-- Reduction of Except.map on an ok value. -/
theorem except_map_ok (a : α) (f : α → β) :
    (Except.ok a : Except String α).map f = .ok (f a) := rfl

/-- C9: every successfully aggregated page is sorted descending by creation
date, and every entry with created absent sorts as the minimum, i.e. after all
dated entries. -/
theorem C9_page_sorted_descending (tagsResponse : Except String TagsResponse)
    (resolveTag : String → Except String TagManifest) (now : Int)
    (pagination : PaginationQuery) (info : ImageInfo)
    (h : get_image_info tagsResponse resolveTag now pagination = .ok info) :
    info.tags.data.Pairwise (fun a b => (optCmp b.created a.created != Ordering.gt) = true) ∧
    info.tags.data.Pairwise (fun a b => b.created.isSome = true → a.created.isSome = true) := by
  have hdata : ∃ ts, info.tags.data = sortTagsByCreated ts := by
    unfold get_image_info at h
    cases htr : get_image_tags tagsResponse with
    | error e => rw [htr] at h; simp [except_bind_error] at h
    | ok tags =>
      rw [htr, except_bind_ok] at h
      cases hp : pagination.into_paginated 15 tags with
      | error e => rw [hp] at h; simp [except_bind_error] at h
      | ok paged =>
        rw [hp, except_bind_ok] at h
        cases hres : paged.data.mapM
            (fun tagName => (resolveTag tagName).map (tagOfManifest now tagName)) with
        | error e => rw [hres] at h; simp [except_bind_error] at h
        | ok resolved =>
          rw [hres, except_bind_ok, except_pure] at h
          cases h
          exact ⟨resolved, rfl⟩
  obtain ⟨ts, hts⟩ := hdata
  rw [hts]
  exact ⟨sortTagsByCreated_sorted ts,
    (sortTagsByCreated_sorted ts).imp (fun hle => createdLe_isSome hle)⟩

/-- C9 witness: a one-tag page resolved and sorted successfully. -/
theorem C9_witness :
    infoC9.tags.data.Pairwise (fun a b => (optCmp b.created a.created != Ordering.gt) = true) ∧
    infoC9.tags.data.Pairwise (fun a b => b.created.isSome = true → a.created.isSome = true) :=
  C9_page_sorted_descending (.ok { tags := some ["v1"] }) rtC9 0
    { page := none, size := none } infoC9 (by
      simp [get_image_info, get_image_tags, PaginationQuery.into_paginated, rtC9,
        tagOfManifest, sortTagsByCreated, infoC9, tagC9, List.mapM.loop,
        except_bind_ok, except_pure, except_map_ok])

/-- A wrapped start index at or past the end of the list makes into_paginated
fail. -/
theorem into_paginated_err_of_start_ge {T : Type} (q : PaginationQuery) (dps : Nat)
    (data : List T) (hge : q.page.getD 0 * q.size.getD dps % 2 ^ 64 ≥ data.length) :
    isHardError (q.into_paginated dps data) = true := by
  simp only [PaginationQuery.into_paginated]
  generalize hsz : q.size.getD dps = s at hge ⊢
  generalize hk : q.page.getD 0 * s % 2 ^ 64 = k at hge ⊢
  split
  · split
    · split
      · rename_i h3
        exact absurd h3 (by omega)
      · rfl
    · rfl
  · rfl

/-- C10 counterexample: at page 2 ^ 63 and size 2 over a one-element list the
mathematical start index 2 ^ 64 is past the end, yet usize multiplication
wraps the start to 0 and into_paginated returns a successful non-empty page
instead of an error. -/
theorem C10_counterexample :
    2 ^ 63 * 2 ≥ (["v1"] : List String).length ∧
    PaginationQuery.into_paginated { page := some (2 ^ 63), size := some 2 } 15
      (["v1"] : List String) =
      .ok { page := 2 ^ 63, size := 2, total_element_count := 1, data := ["v1"] } :=
  ⟨by norm_num, rfl⟩

/-- C10 (amended): into_paginated never returns a successful empty page: it
errors on an empty input list, whenever the wrapped start index (page times
size in usize arithmetic, i.e. modulo 2 ^ 64) is at or past the end of the
list, and for an effective page size of zero; a page whose mathematical start
index overflows usize can wrap and yield a successful page; consequently
get_image_info for an image with zero tags always fails. -/
theorem C10_empty_slice_errors (T : Type) (q : PaginationQuery) (dps : Nat)
    (data : List T) :
    (∀ p, q.into_paginated dps data = .ok p → p.data ≠ []) ∧
    (data = [] → isHardError (q.into_paginated dps data) = true) ∧
    (q.page.getD 0 * q.size.getD dps % 2 ^ 64 ≥ data.length →
      isHardError (q.into_paginated dps data) = true) ∧
    (q.size.getD dps = 0 → isHardError (q.into_paginated dps data) = true) ∧
    (∀ (tr : TagsResponse) (rt : String → Except String TagManifest) (now : Int),
      tr.tags.getD [] = [] →
      isHardError (get_image_info (.ok tr) rt now q) = true) := by
  refine ⟨?_, ?_, ?_, ?_, ?_⟩
  · intro p hp
    simp only [PaginationQuery.into_paginated] at hp
    generalize hk : q.page.getD 0 * q.size.getD dps % 2 ^ 64 = k at hp
    split at hp
    · split at hp
      · split at hp
        · rename_i h1 h2 h3
          cases hp
          intro hnil
          have hlen := congrArg List.length hnil
          simp [List.length_take, List.length_drop] at hlen
          omega
        · exact Except.noConfusion hp
      · exact Except.noConfusion hp
    · exact Except.noConfusion hp
  · intro hdata
    exact into_paginated_err_of_start_ge q dps data (by simp [hdata])
  · exact into_paginated_err_of_start_ge q dps data
  · intro h0
    simp [PaginationQuery.into_paginated, h0, isHardError]
  · intro tr rt now h0
    have hpe := into_paginated_err_of_start_ge q 15 ([] : List String) (by simp)
    cases hp : q.into_paginated 15 ([] : List String) with
    | ok p => rw [hp] at hpe; simp [isHardError] at hpe
    | error e =>
      unfold get_image_info
      have h1 : get_image_tags (Except.ok tr) = .ok [] := by
        simp [get_image_tags, except_map_ok, h0]
      rw [h1, except_bind_ok, hp, except_bind_error]
      rfl

/-- C10 witness: default pagination over a zero-tag image errors at both the
pagination layer and the aggregation entry point. -/
theorem C10_witness :
    isHardError (PaginationQuery.into_paginated { page := none, size := none } 15
      ([] : List String)) = true ∧
    isHardError (get_image_info (.ok { tags := none }) (fun _ => .error "unused") 0
      { page := none, size := none }) = true :=
  ⟨(C10_empty_slice_errors String { page := none, size := none } 15 []).2.1 rfl,
   (C10_empty_slice_errors String { page := none, size := none } 15 []).2.2.2.2
     { tags := none } (fun _ => .error "unused") 0 rfl⟩

end RegistryExplorer
